import Mathlib

/-!
Verification of the health-tracking rule engine and gamification engine.

Source: `App.tsx` (analyzeDiet / analyzeExercise / analyzeSleep) and
`services/gamificationLogic.ts` (calculateGamificationState), with the record
types from `types.ts`.

Modelling conventions:
* JavaScript numbers are modelled as exact rationals (`ℚ`); all thresholds in
  the source are decimal literals, which `ℚ` represents exactly.
* A `date` string "YYYY-MM-DD" is only ever used through
  `new Date(d).getTime()`, a numeric sort key; it is modelled as a `ℕ`
  timestamp.
* `bedTime` stays a string and is parsed exactly as the source does:
  `split(':')` and digit parsing (`Number` / `parseInt` agree with plain
  digit parsing on well-formed "HH:mm" fields; a failed parse makes every
  comparison false, like NaN, modelled by `Option.none`).
* `array.push` under a condition becomes concatenation of a conditional
  singleton; `forEach` accumulation becomes `List.foldl`.
-/

namespace Health

/-- Record `DietData` from types.ts. -/
structure DietData where
  id : String
  date : ℕ
  calorieIntake : ℚ
  vegRatio : ℚ
  proteinRatio : ℚ
  starchRatio : ℚ
  sugaryDrinksCount : ℚ
  friedFoodCount : ℚ
  deriving DecidableEq

/-- Record `ExerciseData` from types.ts. -/
structure ExerciseData where
  id : String
  date : ℕ
  dailySteps : ℚ
  moderateExerciseMinutes : ℚ
  totalSittingMinutes : ℚ
  deriving DecidableEq

/-- Record `SleepData` from types.ts. -/
structure SleepData where
  id : String
  date : ℕ
  bedTime : String
  wakeTime : String
  sleepDuration : ℚ
  usedPhoneBeforeBed : Bool
  deriving DecidableEq

/-- The category union type of `AdviceItem` / `Challenge`. -/
inductive Category where
  | Diet
  | Exercise
  | Sleep
  deriving DecidableEq

/-- The priority union type of `AdviceItem`. -/
inductive Priority where
  | High
  | Medium
  | Low
  deriving DecidableEq

/-- Record `AdviceItem` from types.ts. -/
structure AdviceItem where
  category : Category
  title : String
  description : String
  priority : Priority
  deriving DecidableEq

/-- Record `Badge` from types.ts (the optional `unlockedDate` is never set by the
engine and is omitted). -/
structure Badge where
  id : String
  name : String
  description : String
  icon : String
  color : String
  isUnlocked : Bool
  deriving DecidableEq

/-- Record `Challenge` from types.ts. -/
structure Challenge where
  id : String
  title : String
  description : String
  target : ℚ
  current : ℚ
  unit : String
  isCompleted : Bool
  type : Category
  deriving DecidableEq

/-- Record `GamificationState` from types.ts. -/
structure GamificationState where
  totalPoints : ℕ
  level : ℕ
  progressToNextLevel : ℤ
  badges : List Badge
  challenges : List Challenge
  deriving DecidableEq

/-- Computes `arr.reduce((sum, x) => sum + f(x), 0)`. -/
def reduceSum {α : Type} (f : α → ℚ) (l : List α) : ℚ :=
  l.foldl (fun s x => s + f x) 0

/-- Computes `arr.reduce((sum, x) => sum + f(x), 0) / arr.length`. -/
def avgOf {α : Type} (f : α → ℚ) (l : List α) : ℚ :=
  reduceSum f l / (l.length : ℚ)

/-- Computes `Math.round`: round half toward positive infinity. -/
def jsRound (x : ℚ) : ℤ := Rat.floor (x + 1/2)

/-- Computes `x.toFixed(1)` for the nonnegative averages interpolated into advice
messages: one decimal digit, rounding half up. -/
def toFixed1 (x : ℚ) : String :=
  toString (jsRound (x * 10) / 10) ++ "." ++ toString (jsRound (x * 10) % 10)

/-- Computes `s.split(c)` on a character list (JavaScript `String.prototype.split`
with a single-character separator). -/
def splitCh (c : Char) : List Char → List (List Char)
  | [] => [[]]
  | a :: t =>
    if a = c then [] :: splitCh c t
    else
      match splitCh c t with
      | [] => [[a]]
      | h :: r => (a :: h) :: r

/-- Digit-string parsing: `Number(s)` / `parseInt(s)` on an all-digit,
non-empty field; anything else behaves as NaN (`none`). -/
def digitsToNat? (l : List Char) : Option ℕ :=
  if l ≠ [] ∧ l.all (fun c => c.isDigit) then
    some (l.foldl (fun n c => n * 10 + (c.toNat - 48)) 0)
  else none

/-- Computes `bedTime.split(':').map(Number)[0]`. -/
def bedHour (s : String) : Option ℕ :=
  digitsToNat? ((splitCh ':' s.toList).headD [])

/-- Computes `parseInt(bedTime.split(':')[1])`. -/
def bedMinute (s : String) : Option ℕ :=
  match (splitCh ':' s.toList)[1]? with
  | some cs => digitsToNat? cs
  | none => none

/-- The late-night filter predicate of `analyzeSleep`:
`(hour >= 0 && hour < 5) || (hour === 23 && minute > 30)`. -/
def isLateNight (d : SleepData) : Bool :=
  match bedHour d.bedTime with
  | some h =>
    (decide (0 ≤ h) && decide (h < 5)) ||
      (decide (h = 23) &&
        match bedMinute d.bedTime with
        | some m => decide (30 < m)
        | none => false)
  | none => false

/-- The High-priority unbalanced-nutrition advice of `analyzeDiet`. -/
def unbalancedAdvice : AdviceItem :=
  { category := Category.Diet
    title := "營養比例失衡"
    description := "建議採用「健康餐盤法」：1/2 蔬菜、1/4 蛋白質、1/4 澱粉。"
    priority := Priority.High }

/-- The Medium-priority sugary-drink advice of `analyzeDiet`. -/
def sugaryAdvice : AdviceItem :=
  { category := Category.Diet
    title := "含糖飲料攝取過多"
    description := "提醒每週至少 3 天不喝含糖飲料，多喝水。"
    priority := Priority.Medium }

/-- The Medium-priority insufficient-activity advice of `analyzeExercise`;
its message interpolates the rounded average step count. -/
def insufficientActivityAdvice (avgSteps : ℚ) : AdviceItem :=
  { category := Category.Exercise
    title := "活動量不足"
    description :=
      "目前平均步數 " ++ toString (jsRound avgSteps) ++ " 步。建議每日目標：8,000–10,000 步。"
    priority := Priority.Medium }

/-- The High-priority insufficient-moderate-exercise advice of
`analyzeExercise`. -/
def insufficientModerateAdvice : AdviceItem :=
  { category := Category.Exercise
    title := "中等強度運動不足"
    description := "每週建議至少 3 次，共 180 分鐘的中等強度運動。"
    priority := Priority.High }

/-- The Low-priority excessive-sitting advice of `analyzeExercise`. -/
def sittingAdvice : AdviceItem :=
  { category := Category.Exercise
    title := "久坐時間過長"
    description := "建議每久坐 50 分鐘後，起身活動 5 分鐘。"
    priority := Priority.Low }

/-- The High-priority frequent-late-nights advice of `analyzeSleep`. -/
def lateNightAdvice : AdviceItem :=
  { category := Category.Sleep
    title := "頻繁熬夜"
    description := "檢測到入睡時間較晚，建議養成規律作息，目標 23:00 前就寢。"
    priority := Priority.High }

/-- The High-priority insufficient-sleep advice of `analyzeSleep`; its
message interpolates the average sleep duration to one decimal. -/
def insufficientSleepAdvice (avgSleep : ℚ) : AdviceItem :=
  { category := Category.Sleep
    title := "睡眠時數不足"
    description :=
      "平均睡眠僅 " ++ toFixed1 avgSleep ++ " 小時。高中生建議每晚睡足 7.5 - 8.5 小時。"
    priority := Priority.High }

/-- The Medium-priority pre-bed-phone advice of `analyzeSleep`. -/
def phoneAdvice : AdviceItem :=
  { category := Category.Sleep
    title := "睡前使用手機"
    description := "藍光會影響褪黑激素分泌，建議睡前 30 分鐘不要使用手機。"
    priority := Priority.Medium }

/-- Function `analyzeDiet` from App.tsx. -/
def analyzeDiet (weeklyData : List DietData) : List AdviceItem :=
  if weeklyData.length = 0 then [] else
    let avgVeg := avgOf (fun d => d.vegRatio) weeklyData
    let avgProtein := avgOf (fun d => d.proteinRatio) weeklyData
    let a1 : List AdviceItem :=
      if avgVeg < 0.5 ∨ avgProtein < 0.25 then [unbalancedAdvice] else []
    let avgSugary := avgOf (fun d => d.sugaryDrinksCount) weeklyData
    let a2 : List AdviceItem :=
      if avgSugary > 0.57 then [sugaryAdvice] else []
    a1 ++ a2

/-- Function `analyzeExercise` from App.tsx. -/
def analyzeExercise (weeklyData : List ExerciseData) : List AdviceItem :=
  if weeklyData.length = 0 then [] else
    let avgSteps := avgOf (fun e => e.dailySteps) weeklyData
    let a1 : List AdviceItem :=
      if avgSteps < 8000 then [insufficientActivityAdvice avgSteps] else []
    let totalModMin := reduceSum (fun e => e.moderateExerciseMinutes) weeklyData
    let a2 : List AdviceItem :=
      if totalModMin < 180 then [insufficientModerateAdvice] else []
    let avgSitting := avgOf (fun e => e.totalSittingMinutes) weeklyData
    let a3 : List AdviceItem :=
      if avgSitting > 480 then [sittingAdvice] else []
    a1 ++ a2 ++ a3

/-- Function `analyzeSleep` from App.tsx. -/
def analyzeSleep (weeklyData : List SleepData) : List AdviceItem :=
  if weeklyData.length = 0 then [] else
    let lateNights := (weeklyData.filter isLateNight).length
    let a1 : List AdviceItem :=
      if lateNights > 2 then [lateNightAdvice] else []
    let avgSleep := avgOf (fun s => s.sleepDuration) weeklyData
    let a2 : List AdviceItem :=
      if avgSleep < 7.5 then [insufficientSleepAdvice avgSleep] else []
    let phoneDays := (weeklyData.filter (fun s => s.usedPhoneBeforeBed)).length
    let a3 : List AdviceItem :=
      if phoneDays > 3 then [phoneAdvice] else []
    a1 ++ a2 ++ a3

/-- Points contributed by one diet entry. -/
def dietEntryPoints (d : DietData) : ℕ :=
  (if d.vegRatio ≥ 0.3 ∧ d.proteinRatio ≥ 0.2 then 20 else 0) +
    (if d.sugaryDrinksCount = 0 then 10 else 0) +
    (if d.friedFoodCount = 0 then 10 else 0)

/-- Points contributed by one exercise entry. -/
def exerciseEntryPoints (e : ExerciseData) : ℕ :=
  (if e.dailySteps ≥ 8000 then 15 else 0) +
    (if e.dailySteps ≥ 12000 then 10 else 0) +
    (if e.moderateExerciseMinutes ≥ 30 then 20 else 0)

/-- Points contributed by one sleep entry. -/
def sleepEntryPoints (s : SleepData) : ℕ :=
  (if s.sleepDuration ≥ 7.0 ∧ s.sleepDuration ≤ 9.0 then 20 else 0) +
    (if !s.usedPhoneBeforeBed then 15 else 0)

/-- The `points` accumulator after the three `forEach` loops of
`calculateGamificationState`. -/
def totalPointsOf (diets : List DietData) (exercises : List ExerciseData)
    (sleeps : List SleepData) : ℕ :=
  sleeps.foldl (fun p s => p + sleepEntryPoints s)
    (exercises.foldl (fun p e => p + exerciseEntryPoints e)
      (diets.foldl (fun p d => p + dietEntryPoints d) 0))

/-- Constant `pointsPerLevel = 200`. -/
def pointsPerLevel : ℕ := 200

/-- Computes `Math.floor(points / pointsPerLevel) + 1`. -/
def levelOf (points : ℕ) : ℕ := points / pointsPerLevel + 1

/-- Computes `Math.floor(((points % pointsPerLevel) / pointsPerLevel) * 100)`. -/
def progressOf (points : ℕ) : ℤ :=
  Rat.floor ((((points % pointsPerLevel : ℕ) : ℚ) / (pointsPerLevel : ℚ)) * 100)

/-- The badge array as first constructed (before the sleep-streak pass). -/
def baseBadges (diets : List DietData) (exercises : List ExerciseData) :
    List Badge :=
  [ { id := "first_step"
      name := "初出茅廬"
      description := "紀錄第一筆運動數據"
      icon := "fa-person-walking"
      color := "text-blue-400"
      isUnlocked := decide (exercises.length > 0) },
    { id := "step_master"
      name := "萬步天王"
      description := "單日步數超過 10,000 步"
      icon := "fa-fire"
      color := "text-red-500"
      isUnlocked := exercises.any (fun e => decide (e.dailySteps ≥ 10000)) },
    { id := "sleep_streak"
      name := "好眠大師"
      description := "連續 3 天睡眠達標 (7+ 小時)"
      icon := "fa-moon"
      color := "text-purple-400"
      isUnlocked := false },
    { id := "clean_eater"
      name := "飲食清流"
      description := "累積 3 天不喝含糖飲料"
      icon := "fa-leaf"
      color := "text-green-500"
      isUnlocked :=
        decide ((diets.filter (fun d => decide (d.sugaryDrinksCount = 0))).length ≥ 3) } ]

/-- Sleep entries sorted ascending by `new Date(date).getTime()`
(a stable ascending sort, per the ES2019 `Array.prototype.sort` contract). -/
def sortedSleeps (sleeps : List SleepData) : List SleepData :=
  List.insertionSort (fun a b => a.date ≤ b.date) sleeps

/-- One step of the running streak counter: increment and record the
maximum on `sleepDuration >= 7`, reset to 0 otherwise. -/
def streakStep (st : ℕ × ℕ) (s : SleepData) : ℕ × ℕ :=
  if 7 ≤ s.sleepDuration then (st.1 + 1, max st.2 (st.1 + 1)) else (0, st.2)

/-- Value of `maxSleepStreak` after the `sortedSleeps.forEach` loop. -/
def maxSleepStreakOf (sleeps : List SleepData) : ℕ :=
  ((sortedSleeps sleeps).foldl streakStep (0, 0)).2

/-- Models `badges.find(b => b.id === 'sleep_streak')` followed by
`badge.isUnlocked = true`: the first badge with that id is replaced by its
unlocked copy. -/
def setSleepStreakUnlocked : List Badge → List Badge
  | [] => []
  | b :: bs =>
    if b.id = "sleep_streak" then { b with isUnlocked := true } :: bs
    else b :: setSleepStreakUnlocked bs

/-- The challenge array of `calculateGamificationState`. -/
def challengesOf (diets : List DietData) (exercises : List ExerciseData) :
    List Challenge :=
  let totalSteps := reduceSum (fun e => e.dailySteps) exercises
  let totalModMins := reduceSum (fun e => e.moderateExerciseMinutes) exercises
  let balancedMeals :=
    (diets.filter (fun d => decide (d.vegRatio ≥ 0.3 ∧ d.proteinRatio ≥ 0.2))).length
  [ { id := "weekly_steps"
      title := "本週步數挑戰"
      description := "累積 50,000 步"
      target := 50000
      current := totalSteps
      unit := "步"
      isCompleted := decide (totalSteps ≥ 50000)
      type := Category.Exercise },
    { id := "active_week"
      title := "熱血燃燒"
      description := "累積 150 分鐘中等強度運動"
      target := 150
      current := totalModMins
      unit := "分鐘"
      isCompleted := decide (totalModMins ≥ 150)
      type := Category.Exercise },
    { id := "balanced_diet"
      title := "營養滿分"
      description := "攝取 5 餐均衡飲食"
      target := 5
      current := (balancedMeals : ℚ)
      unit := "餐"
      isCompleted := decide (balancedMeals ≥ 5)
      type := Category.Diet } ]

/-- Function `calculateGamificationState` from services/gamificationLogic.ts. -/
def calculateGamificationState (diets : List DietData)
    (exercises : List ExerciseData) (sleeps : List SleepData) :
    GamificationState :=
  let points := totalPointsOf diets exercises sleeps
  let badges0 := baseBadges diets exercises
  let badges :=
    if maxSleepStreakOf sleeps ≥ 3 then setSleepStreakUnlocked badges0
    else badges0
  { totalPoints := points
    level := levelOf points
    progressToNextLevel := progressOf points
    badges := badges
    challenges := challengesOf diets exercises }

/-! ### General lemmas about the embedded definitions -/

theorem ratFloor_eq_floor (q : ℚ) : Rat.floor q = ⌊q⌋ :=
  (Rat.floor_def' q).trans Rat.floor_def.symm

theorem foldl_add_rat {α : Type} (f : α → ℚ) :
    ∀ (l : List α) (init : ℚ),
      l.foldl (fun s x => s + f x) init = init + (l.map f).sum := by
  intro l
  induction l with
  | nil => simp
  | cons a t ih => intro init; simp [ih, add_assoc]

theorem reduceSum_eq {α : Type} (f : α → ℚ) (l : List α) :
    reduceSum f l = (l.map f).sum := by
  simp [reduceSum, foldl_add_rat]

theorem foldl_add_nat {α : Type} (f : α → ℕ) :
    ∀ (l : List α) (init : ℕ),
      l.foldl (fun p x => p + f x) init = init + (l.map f).sum := by
  intro l
  induction l with
  | nil => simp
  | cons a t ih => intro init; simp [ih, Nat.add_assoc]

theorem totalPointsOf_eq (diets : List DietData) (exercises : List ExerciseData)
    (sleeps : List SleepData) :
    totalPointsOf diets exercises sleeps =
      (diets.map dietEntryPoints).sum + (exercises.map exerciseEntryPoints).sum +
        (sleeps.map sleepEntryPoints).sum := by
  simp [totalPointsOf, foldl_add_nat, Nat.add_assoc]

/-! ### C1: empty inputs -/

/-- C1: on empty inputs each analyzer returns the empty list, and
`calculateGamificationState` returns zero points, level 1, progress 0, all
four badges locked, and all three challenges at current 0, not completed. -/
theorem empty_inputs_spec :
    analyzeDiet [] = [] ∧ analyzeExercise [] = [] ∧ analyzeSleep [] = [] ∧
      (calculateGamificationState [] [] []).totalPoints = 0 ∧
      (calculateGamificationState [] [] []).level = 1 ∧
      (calculateGamificationState [] [] []).progressToNextLevel = 0 ∧
      (calculateGamificationState [] [] []).badges.length = 4 ∧
      (∀ b ∈ (calculateGamificationState [] [] []).badges, b.isUnlocked = false) ∧
      (calculateGamificationState [] [] []).challenges.length = 3 ∧
      (∀ c ∈ (calculateGamificationState [] [] []).challenges,
        c.current = 0 ∧ c.isCompleted = false) := by
  have hprog : progressOf 0 = 0 := by
    rw [progressOf, ratFloor_eq_floor]
    norm_num [pointsPerLevel]
  refine ⟨rfl, rfl, rfl, rfl, rfl, hprog, rfl, ?_, rfl, ?_⟩
  · intro b hb
    simp only [calculateGamificationState, maxSleepStreakOf, sortedSleeps,
      baseBadges] at hb
    norm_num at hb
    rcases hb with h | h | h | h <;> subst h <;> norm_num
  · intro c hc
    simp only [calculateGamificationState, challengesOf] at hc
    norm_num [reduceSum] at hc
    rcases hc with h | h | h <;> subst h <;> norm_num [reduceSum]

/-! ### C2: healthy diet weeks get no diet advice -/

/-- C2: a non-empty diet list with average vegetable ratio at least 0.5,
average protein ratio at least 0.25 and average sugary-drink count at most
0.57 yields no diet advice. -/
theorem analyzeDiet_healthy_empty (l : List DietData) (h : l ≠ [])
    (h1 : (0.5 : ℚ) ≤ avgOf (fun d => d.vegRatio) l)
    (h2 : (0.25 : ℚ) ≤ avgOf (fun d => d.proteinRatio) l)
    (h3 : avgOf (fun d => d.sugaryDrinksCount) l ≤ 0.57) :
    analyzeDiet l = [] := by
  have hlen : ¬ l.length = 0 := by simpa [List.length_eq_zero] using h
  have hv : ¬(avgOf (fun d => d.vegRatio) l < 0.5 ∨
      avgOf (fun d => d.proteinRatio) l < 0.25) := by
    push_neg
    exact ⟨h1, h2⟩
  have hs : ¬ avgOf (fun d => d.sugaryDrinksCount) l > 0.57 := not_lt.2 h3
  simp [analyzeDiet, hlen, hv, hs]

/-- A diet entry at the healthy boundary: half vegetables, a quarter
protein, no sugary drinks. -/
def boundaryDiet : DietData :=
  { id := "d1", date := 0, calorieIntake := 500, vegRatio := 0.5,
    proteinRatio := 0.25, starchRatio := 0.25, sugaryDrinksCount := 0,
    friedFoodCount := 0 }

theorem analyzeDiet_healthy_empty_witness : analyzeDiet [boundaryDiet] = [] := by
  refine analyzeDiet_healthy_empty [boundaryDiet] (by simp) ?_ ?_ ?_ <;>
    norm_num [avgOf, reduceSum, boundaryDiet]

/-! ### C3: the sugary-drink threshold is strict at 0.57 -/

/-- C3: the Medium-priority sugary-drink advice is emitted exactly when the
average sugary-drink count strictly exceeds 0.57. -/
theorem sugary_advice_iff (l : List DietData) (h : l ≠ []) :
    sugaryAdvice ∈ analyzeDiet l ↔
      (0.57 : ℚ) < avgOf (fun d => d.sugaryDrinksCount) l := by
  have hlen : ¬ l.length = 0 := by simpa [List.length_eq_zero] using h
  have hne : sugaryAdvice ≠ unbalancedAdvice := by decide
  by_cases h1 : avgOf (fun d => d.vegRatio) l < 0.5 ∨
      avgOf (fun d => d.proteinRatio) l < 0.25 <;>
    by_cases h2 : (0.57 : ℚ) < avgOf (fun d => d.sugaryDrinksCount) l <;>
      simp [analyzeDiet, hlen, h1, h2, hne]

/-- A healthy diet entry whose sugary-drink count is the given value. -/
def sugaryDietAt (q : ℚ) : DietData :=
  { id := "d", date := 0, calorieIntake := 500, vegRatio := 0.5,
    proteinRatio := 0.25, starchRatio := 0.25, sugaryDrinksCount := q,
    friedFoodCount := 0 }

theorem sugary_advice_iff_witness :
    (sugaryAdvice ∈ analyzeDiet [sugaryDietAt 0.57] ↔
        (0.57 : ℚ) < avgOf (fun d => d.sugaryDrinksCount) [sugaryDietAt 0.57]) ∧
      (sugaryAdvice ∈ analyzeDiet [sugaryDietAt 0.58] ↔
        (0.57 : ℚ) < avgOf (fun d => d.sugaryDrinksCount) [sugaryDietAt 0.58]) :=
  ⟨sugary_advice_iff [sugaryDietAt 0.57] (by simp),
    sugary_advice_iff [sugaryDietAt 0.58] (by simp)⟩

/-! ### C4: the late-night rule and its 23:30 boundary -/

theorem lateNight_ne_insufficientSleep (x : ℚ) :
    lateNightAdvice ≠ insufficientSleepAdvice x := by
  intro h
  have ht := congrArg AdviceItem.title h
  simp only [lateNightAdvice, insufficientSleepAdvice] at ht
  exact absurd ht (by decide)

/-- C4: `analyzeSleep` emits the High-priority late-night advice exactly when
more than 2 entries pass the late-night test (bed hour in [0,5), or hour 23
with minute strictly above 30); a bed time of exactly "23:30" does not pass
the test and "23:31" does. -/
theorem late_night_advice_iff :
    (∀ l : List SleepData,
      (lateNightAdvice ∈ analyzeSleep l ↔ 2 < (l.filter isLateNight).length)) ∧
      (∀ d : SleepData, d.bedTime = "23:30" → isLateNight d = false) ∧
      (∀ d : SleepData, d.bedTime = "23:31" → isLateNight d = true) := by
  refine ⟨?_, ?_, ?_⟩
  · intro l
    rcases eq_or_ne l [] with rfl | h
    · simp [analyzeSleep]
    · have hlen : ¬ l.length = 0 := by simpa [List.length_eq_zero] using h
      have hne1 : lateNightAdvice ≠
          insufficientSleepAdvice (avgOf (fun s => s.sleepDuration) l) :=
        lateNight_ne_insufficientSleep _
      have hne2 : lateNightAdvice ≠ phoneAdvice := by decide
      by_cases h1 : 2 < (l.filter isLateNight).length <;>
        by_cases h2 : avgOf (fun s => s.sleepDuration) l < 7.5 <;>
          by_cases h3 : 3 < (l.filter (fun s => s.usedPhoneBeforeBed)).length <;>
            simp [analyzeSleep, hlen, h1, h2, h3, hne1, hne2]
  · intro d h
    unfold isLateNight
    rw [h]
    decide
  · intro d h
    unfold isLateNight
    rw [h]
    decide

/-- A sleep entry going to bed at the given time. -/
def sleepAtBedTime (bt : String) : SleepData :=
  { id := "s", date := 0, bedTime := bt, wakeTime := "06:30",
    sleepDuration := 7, usedPhoneBeforeBed := false }

theorem late_night_advice_iff_witness :
    isLateNight (sleepAtBedTime "23:30") = false ∧
      isLateNight (sleepAtBedTime "23:31") = true :=
  ⟨late_night_advice_iff.2.1 (sleepAtBedTime "23:30") rfl,
    late_night_advice_iff.2.2 (sleepAtBedTime "23:31") rfl⟩

/-! ### C5: level and progress derivation -/

/-- C5: the returned state always satisfies
`level = floor(totalPoints / 200) + 1` and
`progressToNextLevel = floor((totalPoints mod 200) / 200 * 100)`, an integer
between 0 and 99. -/
theorem level_progress_invariant (diets : List DietData)
    (exercises : List ExerciseData) (sleeps : List SleepData) :
    (calculateGamificationState diets exercises sleeps).level =
        (calculateGamificationState diets exercises sleeps).totalPoints / 200 + 1 ∧
      (calculateGamificationState diets exercises sleeps).progressToNextLevel =
        ⌊((((calculateGamificationState diets exercises sleeps).totalPoints % 200 : ℕ) : ℚ)
          / 200) * 100⌋ ∧
      0 ≤ (calculateGamificationState diets exercises sleeps).progressToNextLevel ∧
      (calculateGamificationState diets exercises sleeps).progressToNextLevel ≤ 99 := by
  set points := totalPointsOf diets exercises sleeps with hp
  have htp : (calculateGamificationState diets exercises sleeps).totalPoints = points := rfl
  have hlv : (calculateGamificationState diets exercises sleeps).level = levelOf points := rfl
  have hpr : (calculateGamificationState diets exercises sleeps).progressToNextLevel =
      progressOf points := rfl
  have hfloor : progressOf points = ⌊(((points % 200 : ℕ) : ℚ) / 200) * 100⌋ := by
    rw [progressOf, ratFloor_eq_floor]
    norm_num [pointsPerLevel]
  have hub : ((points % 200 : ℕ) : ℚ) < 200 := by
    exact_mod_cast Nat.mod_lt points (show 0 < 200 by norm_num)
  have hlbq : (0 : ℚ) ≤ (((points % 200 : ℕ) : ℚ) / 200) * 100 := by positivity
  refine ⟨?_, ?_, ?_, ?_⟩
  · rw [hlv, htp, levelOf, pointsPerLevel]
  · rw [hpr, htp, hfloor]
  · rw [hpr, hfloor]
    exact Int.le_floor.2 (by exact_mod_cast hlbq)
  · rw [hpr, hfloor]
    have hlt : (((points % 200 : ℕ) : ℚ) / 200) * 100 < 100 := by
      rw [div_mul_eq_mul_div, div_lt_iff₀ (by norm_num : (0 : ℚ) < 200)]
      linarith
    have hfl : ⌊(((points % 200 : ℕ) : ℚ) / 200) * 100⌋ < (100 : ℤ) := by
      apply Int.floor_lt.2
      push_cast
      linarith
    linarith

/-! ### C6: the step bonuses stack -/

/-- C6: an exercise entry with at least 12000 daily steps earns both the
+15 and the +10 step bonuses; with exactly 12000 steps and fewer than 30
moderate-exercise minutes, the whole state is 25 points, level 1 and
progress 12. -/
theorem step_bonus_stacking (e : ExerciseData) (hs : e.dailySteps = 12000)
    (hm : e.moderateExerciseMinutes < 30) :
    (∀ e2 : ExerciseData, (12000 : ℚ) ≤ e2.dailySteps →
        15 + 10 ≤ exerciseEntryPoints e2) ∧
      (calculateGamificationState [] [e] []).totalPoints = 25 ∧
      (calculateGamificationState [] [e] []).level = 1 ∧
      (calculateGamificationState [] [e] []).progressToNextLevel = 12 := by
  have hpts : totalPointsOf [] [e] [] = 25 := by
    have h8 : (8000 : ℚ) ≤ e.dailySteps := by rw [hs]; norm_num
    have h12 : (12000 : ℚ) ≤ e.dailySteps := by rw [hs]
    have h30 : ¬ (30 : ℚ) ≤ e.moderateExerciseMinutes := not_le.2 hm
    simp [totalPointsOf, exerciseEntryPoints, h8, h12, h30]
  refine ⟨?_, hpts, ?_, ?_⟩
  · intro e2 h12
    have h8 : (8000 : ℚ) ≤ e2.dailySteps := le_trans (by norm_num) h12
    rw [exerciseEntryPoints, if_pos h8, if_pos h12]
    split <;> norm_num
  · have : (calculateGamificationState [] [e] []).level =
        levelOf (totalPointsOf [] [e] []) := rfl
    rw [this, hpts]
    rfl
  · have : (calculateGamificationState [] [e] []).progressToNextLevel =
        progressOf (totalPointsOf [] [e] []) := rfl
    rw [this, hpts, progressOf, ratFloor_eq_floor, pointsPerLevel]
    norm_num

/-- An exercise entry with exactly 12000 steps and no moderate exercise. -/
def twelveKExercise : ExerciseData :=
  { id := "e1", date := 0, dailySteps := 12000, moderateExerciseMinutes := 0,
    totalSittingMinutes := 0 }

theorem step_bonus_stacking_witness :
    (calculateGamificationState [] [twelveKExercise] []).totalPoints = 25 ∧
      (calculateGamificationState [] [twelveKExercise] []).level = 1 ∧
      (calculateGamificationState [] [twelveKExercise] []).progressToNextLevel = 12 :=
  (step_bonus_stacking twelveKExercise rfl (by norm_num [twelveKExercise])).2

/-! ### C8: fixed emission order and per-analyzer category -/

theorem ite_singleton_sublist₂ {α : Type} (c1 c2 : Prop) [Decidable c1]
    [Decidable c2] (x y : α) :
    List.Sublist ((if c1 then [x] else []) ++ (if c2 then [y] else [])) [x, y] := by
  by_cases h1 : c1 <;> by_cases h2 : c2 <;> simp [h1, h2]

theorem ite_singleton_sublist₃ {α : Type} (c1 c2 c3 : Prop) [Decidable c1]
    [Decidable c2] [Decidable c3] (x y z : α) :
    List.Sublist
      ((if c1 then [x] else []) ++ (if c2 then [y] else []) ++
        (if c3 then [z] else [])) [x, y, z] := by
  by_cases h1 : c1 <;> by_cases h2 : c2 <;> by_cases h3 : c3 <;> simp [h1, h2, h3]

theorem analyzeDiet_sublist (l : List DietData) :
    List.Sublist (analyzeDiet l) [unbalancedAdvice, sugaryAdvice] := by
  rw [analyzeDiet]
  split
  · exact List.nil_sublist _
  · exact ite_singleton_sublist₂ _ _ _ _

theorem analyzeExercise_sublist (l : List ExerciseData) :
    List.Sublist (analyzeExercise l)
      [insufficientActivityAdvice (avgOf (fun e => e.dailySteps) l),
        insufficientModerateAdvice, sittingAdvice] := by
  rw [analyzeExercise]
  split
  · exact List.nil_sublist _
  · exact ite_singleton_sublist₃ _ _ _ _ _ _

theorem analyzeSleep_sublist (l : List SleepData) :
    List.Sublist (analyzeSleep l)
      [lateNightAdvice, insufficientSleepAdvice (avgOf (fun s => s.sleepDuration) l),
        phoneAdvice] := by
  rw [analyzeSleep]
  split
  · exact List.nil_sublist _
  · exact ite_singleton_sublist₃ _ _ _ _ _ _

/-- C8: each analyzer emits its items as a sublist of the fixed rule order
(unbalanced nutrition before sugary drinks; activity, moderate exercise,
sitting; late nights, sleep duration, phone use), and every item carries the
category of its analyzer. -/
theorem advice_fixed_order :
    (∀ l : List DietData,
      List.Sublist (analyzeDiet l) [unbalancedAdvice, sugaryAdvice] ∧
        ∀ a ∈ analyzeDiet l, a.category = Category.Diet) ∧
      (∀ l : List ExerciseData,
        List.Sublist (analyzeExercise l)
            [insufficientActivityAdvice (avgOf (fun e => e.dailySteps) l),
              insufficientModerateAdvice, sittingAdvice] ∧
          ∀ a ∈ analyzeExercise l, a.category = Category.Exercise) ∧
      (∀ l : List SleepData,
        List.Sublist (analyzeSleep l)
            [lateNightAdvice, insufficientSleepAdvice (avgOf (fun s => s.sleepDuration) l),
              phoneAdvice] ∧
          ∀ a ∈ analyzeSleep l, a.category = Category.Sleep) := by
  refine ⟨fun l => ⟨analyzeDiet_sublist l, ?_⟩,
    fun l => ⟨analyzeExercise_sublist l, ?_⟩,
    fun l => ⟨analyzeSleep_sublist l, ?_⟩⟩
  · intro a ha
    have hm := (analyzeDiet_sublist l).subset ha
    simp only [List.mem_cons, List.mem_singleton, List.not_mem_nil] at hm
    rcases hm with h | h | h
    · subst h; rfl
    · subst h; rfl
    · exact absurd h (by simp)
  · intro a ha
    have hm := (analyzeExercise_sublist l).subset ha
    simp only [List.mem_cons, List.mem_singleton, List.not_mem_nil] at hm
    rcases hm with h | h | h | h
    · subst h; rfl
    · subst h; rfl
    · subst h; rfl
    · exact absurd h (by simp)
  · intro a ha
    have hm := (analyzeSleep_sublist l).subset ha
    simp only [List.mem_cons, List.mem_singleton, List.not_mem_nil] at hm
    rcases hm with h | h | h | h
    · subst h; rfl
    · subst h; rfl
    · subst h; rfl
    · exact absurd h (by simp)

theorem advice_fixed_order_witness :
    List.Sublist (analyzeDiet [boundaryDiet]) [unbalancedAdvice, sugaryAdvice] ∧
      sugaryAdvice.category = Category.Diet :=
  ⟨(advice_fixed_order.1 [boundaryDiet]).1,
    (advice_fixed_order.1 [sugaryDietAt 1]).2 sugaryAdvice
      (by norm_num [analyzeDiet, avgOf, reduceSum, sugaryDietAt])⟩

/-! ### C9: the engines are pure and deterministic -/

/-- C9: the four engine functions are deterministic: equal inputs give equal
outputs (in the embedding they are total functions of their arguments, so
there is no hidden state to depend on). -/
theorem engines_deterministic (d1 d2 : List DietData) (e1 e2 : List ExerciseData)
    (s1 s2 : List SleepData) (hd : d1 = d2) (he : e1 = e2) (hs : s1 = s2) :
    analyzeDiet d1 = analyzeDiet d2 ∧ analyzeExercise e1 = analyzeExercise e2 ∧
      analyzeSleep s1 = analyzeSleep s2 ∧
      calculateGamificationState d1 e1 s1 = calculateGamificationState d2 e2 s2 := by
  subst hd
  subst he
  subst hs
  exact ⟨rfl, rfl, rfl, rfl⟩

theorem engines_deterministic_witness :
    analyzeDiet [boundaryDiet] = analyzeDiet [boundaryDiet] ∧
      analyzeExercise [twelveKExercise] = analyzeExercise [twelveKExercise] ∧
      analyzeSleep [] = analyzeSleep [] ∧
      calculateGamificationState [boundaryDiet] [twelveKExercise] [] =
        calculateGamificationState [boundaryDiet] [twelveKExercise] [] :=
  engines_deterministic [boundaryDiet] [boundaryDiet] [twelveKExercise]
    [twelveKExercise] [] [] rfl rfl rfl

/-! ### C10: appending an entry never decreases points or level -/

theorem levelOf_mono {p q : ℕ} (h : p ≤ q) : levelOf p ≤ levelOf q :=
  Nat.add_le_add_right (Nat.div_le_div_right h) 1

/-- C10: appending one entry to any of the three input lists never decreases
`totalPoints`, and therefore never decreases `level`. -/
theorem totalPoints_monotone_append (diets : List DietData)
    (exercises : List ExerciseData) (sleeps : List SleepData) (d : DietData)
    (e : ExerciseData) (s : SleepData) :
    ((calculateGamificationState diets exercises sleeps).totalPoints ≤
        (calculateGamificationState (diets ++ [d]) exercises sleeps).totalPoints ∧
      (calculateGamificationState diets exercises sleeps).level ≤
        (calculateGamificationState (diets ++ [d]) exercises sleeps).level) ∧
      ((calculateGamificationState diets exercises sleeps).totalPoints ≤
        (calculateGamificationState diets (exercises ++ [e]) sleeps).totalPoints ∧
      (calculateGamificationState diets exercises sleeps).level ≤
        (calculateGamificationState diets (exercises ++ [e]) sleeps).level) ∧
      ((calculateGamificationState diets exercises sleeps).totalPoints ≤
        (calculateGamificationState diets exercises (sleeps ++ [s])).totalPoints ∧
      (calculateGamificationState diets exercises sleeps).level ≤
        (calculateGamificationState diets exercises (sleeps ++ [s])).level) := by
  have hd : totalPointsOf diets exercises sleeps ≤
      totalPointsOf (diets ++ [d]) exercises sleeps := by
    simp only [totalPointsOf_eq, List.map_append, List.sum_append]
    simp
  have he : totalPointsOf diets exercises sleeps ≤
      totalPointsOf diets (exercises ++ [e]) sleeps := by
    simp only [totalPointsOf_eq, List.map_append, List.sum_append]
    omega
  have hs : totalPointsOf diets exercises sleeps ≤
      totalPointsOf diets exercises (sleeps ++ [s]) := by
    simp only [totalPointsOf_eq, List.map_append, List.sum_append]
    omega
  exact ⟨⟨hd, levelOf_mono hd⟩, ⟨he, levelOf_mono he⟩, ⟨hs, levelOf_mono hs⟩⟩

/-! ### C7: the sleep-streak badge

The running streak counter of the source is characterised as the maximal
length of a run of consecutive (by list position) entries with
`sleepDuration >= 7` in the date-sorted list. -/

/-- Length of the maximal all-good prefix (good = `sleepDuration >= 7`). -/
def goodPrefixLen : List SleepData → ℕ
  | [] => 0
  | s :: t => if 7 ≤ s.sleepDuration then goodPrefixLen t + 1 else 0

/-- Maximal length of an all-good run of consecutive entries. -/
def maxRun : List SleepData → ℕ
  | [] => 0
  | s :: t => max (goodPrefixLen (s :: t)) (maxRun t)

/-- Maximal run length when a good run of length `cur` immediately precedes
the list. -/
def maxRunFrom : ℕ → List SleepData → ℕ
  | cur, [] => cur
  | cur, s :: t =>
    if 7 ≤ s.sleepDuration then maxRunFrom (cur + 1) t
    else max cur (maxRunFrom 0 t)

theorem self_le_maxRunFrom (l : List SleepData) : ∀ cur, cur ≤ maxRunFrom cur l := by
  induction l with
  | nil => intro cur; simp [maxRunFrom]
  | cons s t ih =>
    intro cur
    rw [maxRunFrom]
    split
    · exact le_trans (Nat.le_succ cur) (ih (cur + 1))
    · exact le_max_left _ _

theorem foldl_streak (l : List SleepData) :
    ∀ cur mx, cur ≤ mx →
      (l.foldl streakStep (cur, mx)).2 = max mx (maxRunFrom cur l) := by
  induction l with
  | nil =>
    intro cur mx h
    simp [maxRunFrom, max_eq_left h]
  | cons s t ih =>
    intro cur mx h
    by_cases hp : (7 : ℚ) ≤ s.sleepDuration
    · rw [List.foldl_cons,
        show streakStep (cur, mx) s = (cur + 1, max mx (cur + 1)) by
          simp [streakStep, hp],
        ih (cur + 1) (max mx (cur + 1)) (le_max_right _ _),
        maxRunFrom, if_pos hp, max_assoc,
        max_eq_right (self_le_maxRunFrom t (cur + 1))]
    · rw [List.foldl_cons,
        show streakStep (cur, mx) s = (0, mx) by simp [streakStep, hp],
        ih 0 mx (Nat.zero_le _), maxRunFrom, if_neg hp, ← max_assoc,
        max_eq_left h]

theorem goodPrefixLen_le_maxRun (l : List SleepData) : goodPrefixLen l ≤ maxRun l := by
  cases l with
  | nil => simp [goodPrefixLen, maxRun]
  | cons s t => rw [maxRun]; exact le_max_left _ _

theorem maxRunFrom_eq (l : List SleepData) :
    ∀ cur, maxRunFrom cur l = max (cur + goodPrefixLen l) (maxRun l) := by
  induction l with
  | nil => intro cur; simp [maxRunFrom, goodPrefixLen, maxRun]
  | cons s t ih =>
    intro cur
    by_cases hp : (7 : ℚ) ≤ s.sleepDuration
    · rw [maxRunFrom, if_pos hp, ih (cur + 1), maxRun, goodPrefixLen, if_pos hp,
        ← max_assoc, max_eq_left (Nat.le_add_left _ _),
        show cur + 1 + goodPrefixLen t = cur + (goodPrefixLen t + 1) by omega]
    · rw [maxRunFrom, if_neg hp, ih 0, maxRun, goodPrefixLen, if_neg hp]
      simp only [Nat.zero_add, Nat.add_zero, Nat.zero_max]
      rw [max_eq_right (goodPrefixLen_le_maxRun t)]

theorem maxSleepStreakOf_eq_maxRun (sleeps : List SleepData) :
    maxSleepStreakOf sleeps = maxRun (sortedSleeps sleeps) := by
  rw [maxSleepStreakOf, foldl_streak _ 0 0 le_rfl, maxRunFrom_eq]
  simp only [Nat.zero_add, Nat.zero_max]
  rw [max_eq_right (goodPrefixLen_le_maxRun _)]

theorem le_maxRun_iff (k : ℕ) (l : List SleepData) :
    k ≤ maxRun l ↔ ∃ p t, l = p ++ t ∧ k ≤ goodPrefixLen t := by
  induction l with
  | nil =>
    constructor
    · intro h
      exact ⟨[], [], rfl, by simpa [maxRun, goodPrefixLen] using h⟩
    · rintro ⟨p, t, hpt, hk⟩
      obtain ⟨rfl, rfl⟩ := List.append_eq_nil.mp hpt.symm
      simpa [maxRun, goodPrefixLen] using hk
  | cons s t ih =>
    rw [maxRun, le_max_iff]
    constructor
    · rintro (h | h)
      · exact ⟨[], s :: t, rfl, h⟩
      · obtain ⟨p, u, hpu, hk⟩ := ih.mp h
        exact ⟨s :: p, u, by rw [hpu]; rfl, hk⟩
    · rintro ⟨p, u, hpu, hk⟩
      cases p with
      | nil =>
        left
        simp only [List.nil_append] at hpu
        rwa [hpu]
      | cons a p =>
        right
        simp only [List.cons_append, List.cons.injEq] at hpu
        exact ih.mpr ⟨p, u, hpu.2, hk⟩

theorem good_of_le_goodPrefixLen (k : ℕ) :
    ∀ t : List SleepData, k ≤ goodPrefixLen t →
      ∀ x ∈ t.take k, (7 : ℚ) ≤ x.sleepDuration := by
  induction k with
  | zero => intro t _ x hx; simp at hx
  | succ k ih =>
    intro t h x hx
    cases t with
    | nil => simp [goodPrefixLen] at h
    | cons s r =>
      rw [goodPrefixLen] at h
      by_cases hp : (7 : ℚ) ≤ s.sleepDuration
      · rw [if_pos hp] at h
        rw [List.take_succ_cons] at hx
        rcases List.mem_cons.mp hx with rfl | hx2
        · exact hp
        · exact ih r (Nat.succ_le_succ_iff.mp h) x hx2
      · rw [if_neg hp] at h
        exact absurd h (by omega)

theorem goodPrefixLen_le_length (t : List SleepData) : goodPrefixLen t ≤ t.length := by
  induction t with
  | nil => simp [goodPrefixLen]
  | cons s r ih =>
    rw [goodPrefixLen]
    split
    · simpa using Nat.succ_le_succ ih
    · simp

theorem length_le_goodPrefixLen_append (run : List SleepData) :
    ∀ post, (∀ x ∈ run, (7 : ℚ) ≤ x.sleepDuration) →
      run.length ≤ goodPrefixLen (run ++ post) := by
  induction run with
  | nil => intro post _; simp
  | cons s r ih =>
    intro post h
    rw [List.cons_append, goodPrefixLen, if_pos (h s (by simp))]
    simpa using Nat.succ_le_succ (ih post fun x hx => h x (by simp [hx]))

/-- The streak counter reaches 3 exactly when the date-sorted sleep list
splits around a run of at least 3 entries, all with duration at least 7. -/
theorem maxStreak_ge3_iff (sleeps : List SleepData) :
    3 ≤ maxSleepStreakOf sleeps ↔
      ∃ pre run post, sortedSleeps sleeps = pre ++ run ++ post ∧
        3 ≤ run.length ∧ ∀ x ∈ run, (7 : ℚ) ≤ x.sleepDuration := by
  rw [maxSleepStreakOf_eq_maxRun, le_maxRun_iff]
  constructor
  · rintro ⟨p, t, hpt, hk⟩
    refine ⟨p, t.take 3, t.drop 3, ?_, ?_, good_of_le_goodPrefixLen 3 t hk⟩
    · rw [hpt, List.append_assoc, List.take_append_drop]
    · have h3 : 3 ≤ t.length := le_trans hk (goodPrefixLen_le_length t)
      rw [List.length_take]
      omega
  · rintro ⟨pre, run, post, heq, hlen, hgood⟩
    exact ⟨pre, run ++ post, by rw [heq, List.append_assoc],
      le_trans hlen (length_le_goodPrefixLen_append run post hgood)⟩

/-- The sleep_streak badge record with the given unlocked flag. -/
def sleepStreakBadge (b : Bool) : Badge :=
  { id := "sleep_streak"
    name := "好眠大師"
    description := "連續 3 天睡眠達標 (7+ 小時)"
    icon := "fa-moon"
    color := "text-purple-400"
    isUnlocked := b }

theorem badge_sleep_streak_unlocked (diets : List DietData)
    (exercises : List ExerciseData) (sleeps : List SleepData) :
    ∃ b ∈ (calculateGamificationState diets exercises sleeps).badges,
      b.id = "sleep_streak" ∧
        (b.isUnlocked = true ↔ 3 ≤ maxSleepStreakOf sleeps) := by
  have hb : (calculateGamificationState diets exercises sleeps).badges =
      if maxSleepStreakOf sleeps ≥ 3 then
        setSleepStreakUnlocked (baseBadges diets exercises)
      else baseBadges diets exercises := rfl
  by_cases h : 3 ≤ maxSleepStreakOf sleeps
  · rw [hb, if_pos h]
    refine ⟨sleepStreakBadge true, ?_, rfl, by simp [sleepStreakBadge, h]⟩
    simp [setSleepStreakUnlocked, baseBadges, sleepStreakBadge]
  · rw [hb, if_neg h]
    refine ⟨sleepStreakBadge false, ?_, rfl, by simp [sleepStreakBadge, h]⟩
    simp [baseBadges, sleepStreakBadge]

/-- One sleep entry with the given date and duration. -/
def plainSleep (dt : ℕ) (dur : ℚ) : SleepData :=
  { id := "s", date := dt, bedTime := "22:00", wakeTime := "06:30",
    sleepDuration := dur, usedPhoneBeforeBed := false }

/-- The spec's streak example: durations 6,6,6,8,8,8,8 in date order. -/
def streakExampleSleeps : List SleepData :=
  [plainSleep 1 6, plainSleep 2 6, plainSleep 3 6, plainSleep 4 8,
    plainSleep 5 8, plainSleep 6 8, plainSleep 7 8]

/-- C7: the sleep_streak badge is unlocked exactly when the date-sorted sleep
entries contain a run of at least 3 consecutive (by list position) entries
with sleepDuration at least 7; in particular durations 6,6,6,8,8,8,8 in date
order unlock it. -/
theorem sleep_streak_badge_iff :
    (∀ (diets : List DietData) (exercises : List ExerciseData)
        (sleeps : List SleepData),
      ∃ b ∈ (calculateGamificationState diets exercises sleeps).badges,
        b.id = "sleep_streak" ∧
          (b.isUnlocked = true ↔
            ∃ pre run post, sortedSleeps sleeps = pre ++ run ++ post ∧
              3 ≤ run.length ∧ ∀ x ∈ run, (7 : ℚ) ≤ x.sleepDuration)) ∧
      ∃ b ∈ (calculateGamificationState [] [] streakExampleSleeps).badges,
        b.id = "sleep_streak" ∧ b.isUnlocked = true := by
  constructor
  · intro diets exercises sleeps
    obtain ⟨b, hb, hid, hiff⟩ := badge_sleep_streak_unlocked diets exercises sleeps
    exact ⟨b, hb, hid, hiff.trans (maxStreak_ge3_iff sleeps)⟩
  · decide

theorem sleep_streak_badge_iff_witness :
    ∃ b ∈ (calculateGamificationState [] [] streakExampleSleeps).badges,
      b.id = "sleep_streak" ∧ b.isUnlocked = true :=
  sleep_streak_badge_iff.2

end Health
